import Mathlib

/-!
Verification of the photometric passband identity system of the LEMON
repository (the `Passband` value type: parsing of free-form filter
designations, equality, hashing, ordering, enumeration and sampling).

The `passband` module itself is not shipped with the sources at hand
(only its test suite is), so every definition below is modelled from the
specification of the component and checked against the behaviour pinned
down by the test suite.
-/

/-- Modelled from the spec: the fixed enumeration of configured
photometric systems (the missing `passband` module's system constants).
The spec names Johnson, Cousins and Gunn. -/
inductive PhotometricSystem
  | Johnson
  | Cousins
  | Gunn
deriving DecidableEq

/-- Modelled from the spec: the list of all configured photometric
systems, in the order of their enumeration. -/
def systems : List PhotometricSystem :=
  [PhotometricSystem.Johnson, PhotometricSystem.Cousins, PhotometricSystem.Gunn]

/-- Modelled from the spec: the formal, case-sensitively matched name of
each photometric system. -/
def systemName : PhotometricSystem → List Char
  | PhotometricSystem.Johnson => "Johnson".toList
  | PhotometricSystem.Cousins => "Cousins".toList
  | PhotometricSystem.Gunn => "Gunn".toList

/-- Modelled from the spec: the valid filter letters of the Johnson
photometric system (`Passband.JOHNSON_LETTERS`), given in the spec as
U, B, V, R, I, J, H, K, L, M, N. -/
def JOHNSON_LETTERS : List Char := ['U', 'B', 'V', 'R', 'I', 'J', 'H', 'K', 'L', 'M', 'N']

/-- Modelled from the spec: the valid filter letters of the Cousins
photometric system (`Passband.COUSINS_LETTERS`); the spec leaves the
exact set open but requires it to be a subset of the global table's
keys, and the Cousins system is conventionally R and I. -/
def COUSINS_LETTERS : List Char := ['R', 'I']

/-- Modelled from the spec: the valid filter letters of the Gunn
photometric system (`Passband.GUNN_LETTERS`); the spec leaves the exact
set open but requires it to be a subset of the global table's keys. -/
def GUNN_LETTERS : List Char := ['U', 'V', 'G', 'R']

/-- Modelled from the spec: the valid-letter set owned by each
configured photometric system. -/
def systemLetters : PhotometricSystem → List Char
  | PhotometricSystem.Johnson => JOHNSON_LETTERS
  | PhotometricSystem.Cousins => COUSINS_LETTERS
  | PhotometricSystem.Gunn => GUNN_LETTERS

/-- Modelled from the spec: the single global letter-to-wavelength table
(`Passband.wavelengths`), keyed by filter letter alone, giving each
letter its canonical reference wavelength in nanometers. The spec pins
B = 445, V = 551 and I = 806; the remaining Johnson letters carry their
standard effective wavelengths, and G its Gunn value. -/
def wavelengths : List (Char × Nat) :=
  [('U', 365), ('B', 445), ('V', 551), ('G', 511), ('R', 658), ('I', 806),
   ('J', 1220), ('H', 1630), ('K', 2190), ('L', 3450), ('M', 4750), ('N', 10500)]

/-- Lookup of a letter in the global wavelength table. -/
def wavelengthOf (c : Char) : Option Nat :=
  (wavelengths.find? (fun p => p.1 = c)).map (fun p => p.2)

/-- Modelled from the spec: the `Passband` immutable value object of the
missing `passband` module, with its three essential attributes:
`system` (unset for the bare-letter form), `letter`, and the derived
`wavelength`. -/
structure Passband where
  system : Option PhotometricSystem
  letter : Char
  wavelength : Nat
deriving DecidableEq

/-- Modelled from the spec: the error taxonomy raised by the parsing
entry point of the missing `passband` module. -/
inductive PassbandError
  | NonRecognizedPassband
  | InvalidPassbandLetter
  | UnknownPassbandLetter
deriving DecidableEq

instance : DecidableEq (Except PassbandError Passband) := fun x y =>
  match x, y with
  | Except.error a, Except.error b => decidable_of_iff (a = b) (by simp)
  | Except.error _, Except.ok _ => isFalse (fun h => Except.noConfusion h)
  | Except.ok _, Except.error _ => isFalse (fun h => Except.noConfusion h)
  | Except.ok a, Except.ok b => decidable_of_iff (a = b) (by simp)

/-- Split a character list into whitespace-separated tokens, dropping
empty runs (internal whitespace is tolerated by the parser). -/
def splitWords : List Char → List Char → List (List Char)
  | [], acc => if acc.isEmpty then [] else [acc.reverse]
  | c :: rest, acc =>
    if c = ' ' then
      if acc.isEmpty then splitWords rest [] else acc.reverse :: splitWords rest []
    else
      splitWords rest (c :: acc)

/-- The whitespace-separated tokens of an input. -/
def tokensOf (cs : List Char) : List (List Char) :=
  splitWords cs []

/-- Identify a token as a configured system name (case-sensitive). -/
def findSystem (w : List Char) : Option PhotometricSystem :=
  systems.find? (fun s => systemName s = w)

/-- Strip a single pair of enclosing round brackets from a token, if
present: the bracketed-system arrangement `"L (S)"`. -/
def deparen : List Char → Option (List Char)
  | '(' :: rest =>
    match rest.reverse with
    | ')' :: mid => some mid.reverse
    | _ => none
  | _ => none

/-- Modelled from the spec: letter validation once a single-letter
candidate is isolated. If a system was identified the letter must
belong to that system's valid-letter enumeration, otherwise the parse
fails with `InvalidPassbandLetter`; in the bare-letter form the letter
must belong to the global wavelength table, otherwise the parse fails
with `UnknownPassbandLetter`. -/
def validateLetter (sys : Option PhotometricSystem) (c : Char) : Except PassbandError Passband :=
  match sys with
  | some s =>
    if c ∈ systemLetters s then
      Except.ok ⟨some s, c, (wavelengthOf c).getD 0⟩
    else
      Except.error PassbandError.InvalidPassbandLetter
  | none =>
    match wavelengthOf c with
    | some w => Except.ok ⟨none, c, w⟩
    | none => Except.error PassbandError.UnknownPassbandLetter

/-- Modelled from the spec: shape recognition over the token list. The
tolerated shapes are `"<System> <Letter>"`, `"<Letter> <System>"`,
`"<Letter> (<System>)"` and a bare single letter; every other input —
empty, a system name alone, concatenated bracket forms, or more than
one letter candidate — fails with `NonRecognizedPassband`. -/
def parseTokens : List (List Char) → Except PassbandError Passband
  | [] => Except.error PassbandError.NonRecognizedPassband
  | [t] =>
    match t with
    | [c] => validateLetter none c
    | _ => Except.error PassbandError.NonRecognizedPassband
  | [a, b] =>
    match findSystem a with
    | some s =>
      match b with
      | [c] => validateLetter (some s) c
      | _ => Except.error PassbandError.NonRecognizedPassband
    | none =>
      match findSystem b with
      | some s =>
        match a with
        | [c] => validateLetter (some s) c
        | _ => Except.error PassbandError.NonRecognizedPassband
      | none =>
        match (deparen b).bind findSystem with
        | some s =>
          match a with
          | [c] => validateLetter (some s) c
          | _ => Except.error PassbandError.NonRecognizedPassband
        | none => Except.error PassbandError.NonRecognizedPassband
  | _ => Except.error PassbandError.NonRecognizedPassband

/-- Modelled from the spec: the parsing entry point of the missing
`passband` module — the `Passband` constructor applied to a raw,
free-form filter designation. -/
def parse (s : String) : Except PassbandError Passband :=
  parseTokens (tokensOf s.toList)

/-- Modelled from the spec: `Passband` equality — two passbands are
equal iff both `system` and `letter` match. -/
def Passband.equal (p q : Passband) : Bool :=
  decide (p.system = q.system) && decide (p.letter = q.letter)

/-- Modelled from the spec: the `Passband` hash — the global-table
wavelength for the letter, so the hash depends only on `letter`. -/
def Passband.hashValue (p : Passband) : Nat :=
  (wavelengthOf p.letter).getD 0

/-- Modelled from the spec: the single constructor argument printed by
`repr(Passband)`, which fed back through the one-argument constructor
path yields an equal `Passband`. -/
def Passband.reprArg (p : Passband) : String :=
  match p.system with
  | none => String.mk [p.letter]
  | some s => String.mk (systemName s ++ ' ' :: [p.letter])

/-- Whether the textual round-trip through `repr` and the constructor
reproduces the parsed passband exactly. -/
def reprRoundTrip (s : String) : Bool :=
  match parse s with
  | Except.ok p => decide (parse (Passband.reprArg p) = Except.ok p)
  | Except.error _ => false

/-- Modelled from the spec: `Passband.all()` — one `Passband` per
distinct letter of the global wavelength table, system left unset. -/
def Passband.all : List Passband :=
  wavelengths.map (fun p => ⟨none, p.1, p.2⟩)

/-- A fixed fallback element used for positional access (never reached
on valid indices). -/
def defaultPassband : Passband := ⟨none, 'U', 365⟩

/-- Modelled from the spec: `Passband.random()` — a `Passband` whose
letter is drawn from the global table's key set; the random draw is
made explicit as a numeric seed choosing the element. -/
def Passband.random (n : Nat) : Passband :=
  Passband.all.getD (n % Passband.all.length) defaultPassband

/-- The table passbands unequal (system-and-letter equality) to a given
passband: the pool `different()` draws from. -/
def differentCandidates (p : Passband) : List Passband :=
  Passband.all.filter (fun q => !(Passband.equal q p))

/-- Modelled from the spec: `instance.different()` — a new `Passband`
guaranteed to be unequal (system-and-letter equality) to the instance;
the random draw is made explicit as a numeric seed choosing among the
unequal candidates. -/
def Passband.different (p : Passband) (n : Nat) : Passband :=
  (differentCandidates p).getD (n % (differentCandidates p).length) defaultPassband

/-- Modelled from the spec: the strict comparison used for ordering —
ascending by `wavelength`. -/
def Passband.lt (p q : Passband) : Bool :=
  decide (p.wavelength < q.wavelength)

/-- Modelled from the spec: `min` over two passbands — the second is
taken exactly when it compares strictly below the first. -/
def pmin (a b : Passband) : Passband :=
  if Passband.lt b a then b else a

/-- `min` applied to the parses of two raw designations, in the
fallible parsing monad. -/
def parseMin (x y : String) : Except PassbandError Passband := do
  let a ← parse x
  let b ← parse y
  pure (pmin a b)

/-- The non-strict wavelength order on passbands, used for sorting. -/
def wavLe (p q : Passband) : Prop :=
  p.wavelength ≤ q.wavelength

instance : DecidableRel wavLe :=
  fun p q => Nat.decLe p.wavelength q.wavelength

instance : IsTotal Passband wavLe :=
  ⟨fun p q => Nat.le_total p.wavelength q.wavelength⟩

instance : IsTrans Passband wavLe :=
  ⟨fun _ _ _ h h2 => Nat.le_trans h h2⟩

/-- Modelled from the spec: sorting a list of passbands by the
ascending-wavelength total order. -/
def sortPassbands (l : List Passband) : List Passband :=
  List.insertionSort wavLe l

/-- The key set of the global wavelength table. -/
def wavelengthKeys : List Char :=
  wavelengths.map (fun p => p.1)

/-- The uppercase ASCII letters, the alphabet quantified over by the
letter-validation contract. -/
def asciiUppercase : List Char :=
  "ABCDEFGHIJKLMNOPQRSTUVWXYZ".toList

/-- Claim C1: for every configured photometric system S and every letter
L in S's valid-letter set, parsing succeeds on each of the arrangements
"S L", "L S" and "L (S)", returning a passband whose system is S, whose
letter is L and whose wavelength is the global table's entry for L. -/
theorem C1_parse_arrangements :
    ∀ s ∈ systems, ∀ c ∈ systemLetters s,
      wavelengthOf c = some ((wavelengthOf c).getD 0) ∧
      parse (String.mk (systemName s ++ ' ' :: [c])) =
        Except.ok ⟨some s, c, (wavelengthOf c).getD 0⟩ ∧
      parse (String.mk ([c] ++ ' ' :: systemName s)) =
        Except.ok ⟨some s, c, (wavelengthOf c).getD 0⟩ ∧
      parse (String.mk ([c] ++ ' ' :: '(' :: (systemName s ++ [')']))) =
        Except.ok ⟨some s, c, (wavelengthOf c).getD 0⟩ := by
  decide

/-- Witness for C1 at the Johnson system and the letter V. -/
theorem C1_parse_arrangements_witness :
    PhotometricSystem.Johnson ∈ systems ∧
    'V' ∈ systemLetters PhotometricSystem.Johnson ∧
    (wavelengthOf 'V' = some ((wavelengthOf 'V').getD 0) ∧
     parse (String.mk (systemName PhotometricSystem.Johnson ++ ' ' :: ['V'])) =
       Except.ok ⟨some PhotometricSystem.Johnson, 'V', (wavelengthOf 'V').getD 0⟩ ∧
     parse (String.mk (['V'] ++ ' ' :: systemName PhotometricSystem.Johnson)) =
       Except.ok ⟨some PhotometricSystem.Johnson, 'V', (wavelengthOf 'V').getD 0⟩ ∧
     parse (String.mk (['V'] ++ ' ' :: '(' :: (systemName PhotometricSystem.Johnson ++ [')']))) =
       Except.ok ⟨some PhotometricSystem.Johnson, 'V', (wavelengthOf 'V').getD 0⟩) :=
  ⟨by decide, by decide,
   C1_parse_arrangements PhotometricSystem.Johnson (by decide) 'V' (by decide)⟩

/-- Claim C2: once a single-letter candidate is isolated, a letter that
is not valid for the identified system fails with
`InvalidPassbandLetter`, and in the bare-letter form a letter absent
from the global wavelength table fails with `UnknownPassbandLetter`. -/
theorem C2_letter_validation :
    (∀ s ∈ systems, ∀ c ∈ asciiUppercase, c ∉ systemLetters s →
        parse (String.mk (systemName s ++ ' ' :: [c])) =
          Except.error PassbandError.InvalidPassbandLetter) ∧
    (∀ c ∈ asciiUppercase, c ∉ wavelengthKeys →
        parse (String.mk [c]) = Except.error PassbandError.UnknownPassbandLetter) := by
  constructor
  · decide
  · decide

/-- Witness for C2 at the Johnson system and the letter X. -/
theorem C2_letter_validation_witness :
    'X' ∉ systemLetters PhotometricSystem.Johnson ∧
    'X' ∉ wavelengthKeys ∧
    parse (String.mk (systemName PhotometricSystem.Johnson ++ ' ' :: ['X'])) =
      Except.error PassbandError.InvalidPassbandLetter ∧
    parse (String.mk ['X']) = Except.error PassbandError.UnknownPassbandLetter :=
  ⟨by decide, by decide,
   C2_letter_validation.1 PhotometricSystem.Johnson (by decide) 'X' (by decide) (by decide),
   C2_letter_validation.2 'X' (by decide) (by decide)⟩

/-- Claim C3: `NonRecognizedPassband` is raised on the empty string, a
blank string, a bare system name, the concatenated bracket forms, and
every two-letter arrangement built from two distinct valid letters of a
system. -/
theorem C3_non_recognized :
    parse "" = Except.error PassbandError.NonRecognizedPassband ∧
    parse " " = Except.error PassbandError.NonRecognizedPassband ∧
    parse "Johnson" = Except.error PassbandError.NonRecognizedPassband ∧
    parse "Johnson(V)" = Except.error PassbandError.NonRecognizedPassband ∧
    parse "V(Johnson)" = Except.error PassbandError.NonRecognizedPassband ∧
    ∀ s ∈ systems, ∀ a ∈ systemLetters s, ∀ b ∈ systemLetters s, a ≠ b →
      parse (String.mk ([a, b] ++ ' ' :: systemName s)) =
        Except.error PassbandError.NonRecognizedPassband ∧
      parse (String.mk (systemName s ++ ' ' :: [a, b])) =
        Except.error PassbandError.NonRecognizedPassband ∧
      parse (String.mk ([a, b] ++ ' ' :: '(' :: (systemName s ++ [')']))) =
        Except.error PassbandError.NonRecognizedPassband := by
  refine ⟨by decide, by decide, by decide, by decide, by decide, by decide⟩

/-- Witness for C3 at the Johnson system and the letter pair B, V. -/
theorem C3_non_recognized_witness :
    ('B' : Char) ≠ 'V' ∧
    parse (String.mk (['B', 'V'] ++ ' ' :: systemName PhotometricSystem.Johnson)) =
      Except.error PassbandError.NonRecognizedPassband ∧
    parse (String.mk (systemName PhotometricSystem.Johnson ++ ' ' :: ['B', 'V'])) =
      Except.error PassbandError.NonRecognizedPassband ∧
    parse (String.mk (['B', 'V'] ++ ' ' :: '(' :: (systemName PhotometricSystem.Johnson ++ [')']))) =
      Except.error PassbandError.NonRecognizedPassband :=
  ⟨by decide,
   C3_non_recognized.2.2.2.2.2 PhotometricSystem.Johnson (by decide)
     'B' (by decide) 'V' (by decide) (by decide)⟩

/-- C4 counterexample: `parse "Johnson (V)"` does not succeed — it
fails with `NonRecognizedPassband`, as the test suite pins down. -/
theorem C4_johnson_bracket_counterexample :
    parse "Johnson (V)" = Except.error PassbandError.NonRecognizedPassband ∧
    ∀ p : Passband, parse "Johnson (V)" ≠ Except.ok p := by
  refine ⟨by decide, fun p h => ?_⟩
  have h2 : parse "Johnson (V)" = Except.error PassbandError.NonRecognizedPassband := by decide
  rw [h2] at h
  exact Except.noConfusion h

/-- Claim C4 (amended): the spaced bracket form with the letter first,
"V (Johnson)", is tolerated; the system-first bracket form
"Johnson (V)" is rejected with `NonRecognizedPassband`, exactly like
the non-spaced variants "Johnson(V)" and "V(Johnson)". -/
theorem C4_bracket_forms :
    parse "V (Johnson)" = Except.ok ⟨some PhotometricSystem.Johnson, 'V', 551⟩ ∧
    parse "Johnson (V)" = Except.error PassbandError.NonRecognizedPassband ∧
    parse "Johnson(V)" = Except.error PassbandError.NonRecognizedPassband ∧
    parse "V(Johnson)" = Except.error PassbandError.NonRecognizedPassband := by
  refine ⟨by decide, by decide, by decide, by decide⟩

/-- Claim C5: for every letter of the global wavelength table, the
string printed by `repr` of the parsed passband, fed back through the
one-argument constructor path, reproduces the same passband. -/
theorem C5_repr_round_trip :
    ∀ c ∈ wavelengthKeys, reprRoundTrip (String.mk [c]) = true := by
  decide

/-- Witness for C5 at the letter V. -/
theorem C5_repr_round_trip_witness :
    'V' ∈ wavelengthKeys ∧ reprRoundTrip (String.mk ['V']) = true :=
  ⟨by decide, C5_repr_round_trip 'V' (by decide)⟩

/-- Every enumerated passband carries a table letter and the table's
wavelength for it. -/
theorem mem_all_letter_valid :
    ∀ q ∈ Passband.all, q.letter ∈ wavelengthKeys ∧
      wavelengthOf q.letter = some q.wavelength := by
  decide

/-- The pool `different()` draws from is never empty: of the table's U
and B passbands, at most one can be equal to any given passband. -/
theorem different_candidates_ne_nil (p : Passband) : differentCandidates p ≠ [] := by
  unfold differentCandidates
  by_cases h : Passband.equal ⟨none, 'U', 365⟩ p = true
  · have h2 := h
    simp [Passband.equal] at h2
    have hb : (!(Passband.equal ⟨none, 'B', 445⟩ p)) = true := by
      simp [Passband.equal, h2.2.symm]
    exact List.ne_nil_of_mem (List.mem_filter.mpr ⟨by decide, hb⟩)
  · simp at h
    have hu : (!(Passband.equal ⟨none, 'U', 365⟩ p)) = true := by
      simp [h]
    exact List.ne_nil_of_mem (List.mem_filter.mpr ⟨by decide, hu⟩)

/-- Claim C6: the hash of a passband is the global-table wavelength of
its letter — it depends only on the letter — while equality also
requires the systems to match, so two passbands sharing a letter but
not a system are unequal yet hash identically. -/
theorem C6_hash_and_equality :
    (∀ p : Passband, Passband.hashValue p = (wavelengthOf p.letter).getD 0) ∧
    (∀ p q : Passband, p.letter = q.letter →
        Passband.hashValue p = Passband.hashValue q) ∧
    (∀ p q : Passband, p.letter = q.letter → p.system ≠ q.system →
        Passband.equal p q = false ∧ Passband.hashValue p = Passband.hashValue q) := by
  refine ⟨fun p => rfl, fun p q h => ?_, fun p q h hs => ⟨?_, ?_⟩⟩
  · simp [Passband.hashValue, h]
  · simp [Passband.equal, hs]
  · simp [Passband.hashValue, h]

/-- Witness for C6 at a Johnson V passband and a bare V passband. -/
theorem C6_hash_and_equality_witness :
    Passband.equal ⟨some PhotometricSystem.Johnson, 'V', 551⟩ ⟨none, 'V', 551⟩ = false ∧
    Passband.hashValue ⟨some PhotometricSystem.Johnson, 'V', 551⟩ =
      Passband.hashValue ⟨none, 'V', 551⟩ :=
  C6_hash_and_equality.2.2 ⟨some PhotometricSystem.Johnson, 'V', 551⟩
    ⟨none, 'V', 551⟩ rfl (by decide)

/-- Claim C7: ordering is ascending by wavelength — `min` of the parsed
V/B and I/V pairs picks B and V respectively, and after sorting any
list of passbands each element's wavelength is at most the next's. -/
theorem C7_ordering :
    parseMin "V" "B" = parse "B" ∧ parseMin "B" "V" = parse "B" ∧
    parseMin "I" "V" = parse "V" ∧ parseMin "V" "I" = parse "V" ∧
    ∀ (l : List Passband) (i : Nat), i + 1 < (sortPassbands l).length →
      ((sortPassbands l).getD i defaultPassband).wavelength ≤
        ((sortPassbands l).getD (i + 1) defaultPassband).wavelength := by
  refine ⟨by decide, by decide, by decide, by decide, fun l i h => ?_⟩
  have hi : i < (sortPassbands l).length := Nat.lt_of_succ_lt h
  have hs : List.Sorted wavLe (sortPassbands l) := List.sorted_insertionSort wavLe l
  have hrel := hs.rel_get_of_lt (a := ⟨i, hi⟩) (b := ⟨i + 1, h⟩)
    (Fin.mk_lt_mk.mpr (Nat.lt_succ_self i))
  rw [List.getD_eq_getElem _ _ hi, List.getD_eq_getElem _ _ h]
  simpa [List.get_eq_getElem, wavLe] using hrel

/-- Witness for C7's sortedness part on a concrete two-element list. -/
theorem C7_ordering_witness :
    0 + 1 < (sortPassbands [⟨none, 'V', 551⟩, ⟨none, 'B', 445⟩]).length ∧
    ((sortPassbands [⟨none, 'V', 551⟩, ⟨none, 'B', 445⟩]).getD 0 defaultPassband).wavelength ≤
      ((sortPassbands [⟨none, 'V', 551⟩, ⟨none, 'B', 445⟩]).getD (0 + 1) defaultPassband).wavelength :=
  ⟨by decide, C7_ordering.2.2.2.2 [⟨none, 'V', 551⟩, ⟨none, 'B', 445⟩] 0 (by decide)⟩

/-- Claim C8: `all()` yields one passband per distinct table letter,
and its wavelengths are exactly the table's values — no duplicates, no
omissions. -/
theorem C8_all_wavelengths :
    Passband.all.map (fun p => p.wavelength) = wavelengths.map (fun p => p.2) ∧
    (Passband.all.map (fun p => p.wavelength)).toFinset =
      (wavelengths.map (fun p => p.2)).toFinset ∧
    (Passband.all.map (fun p => p.wavelength)).Nodup ∧
    Passband.all.map (fun p => p.letter) = wavelengths.map (fun p => p.1) ∧
    wavelengthKeys.Nodup := by
  refine ⟨rfl, rfl, by decide, rfl, by decide⟩

/-- Claim C9: every outcome of `random()` is a passband whose letter is
a table key carrying the table's wavelength, and every outcome of
`different()` is unequal to the passband it was derived from. -/
theorem C9_random_and_different :
    (∀ n : Nat, (Passband.random n).letter ∈ wavelengthKeys ∧
        wavelengthOf (Passband.random n).letter = some (Passband.random n).wavelength) ∧
    (∀ (p : Passband) (n : Nat), Passband.equal (Passband.different p n) p = false) := by
  constructor
  · intro n
    have hlen : 0 < Passband.all.length := by decide
    have hidx : n % Passband.all.length < Passband.all.length := Nat.mod_lt _ hlen
    have hmem : Passband.random n ∈ Passband.all := by
      unfold Passband.random
      rw [List.getD_eq_getElem _ _ hidx]
      exact List.getElem_mem _
    exact mem_all_letter_valid _ hmem
  · intro p n
    have hne := different_candidates_ne_nil p
    have hlen : 0 < (differentCandidates p).length := List.length_pos.mpr hne
    have hidx : n % (differentCandidates p).length < (differentCandidates p).length :=
      Nat.mod_lt _ hlen
    have hmem : Passband.different p n ∈ differentCandidates p := by
      unfold Passband.different
      rw [List.getD_eq_getElem _ _ hidx]
      exact List.getElem_mem _
    unfold differentCandidates at hmem
    have hpred := (List.mem_filter.mp hmem).2
    simpa using hpred

/-- C10 counterexample: for the table-absent letter X, the
system-identified forms fail with `InvalidPassbandLetter`, not
`UnknownPassbandLetter`. -/
theorem C10_unknown_letter_counterexample :
    parse "Johnson X" = Except.error PassbandError.InvalidPassbandLetter ∧
    parse "Johnson X" ≠ Except.error PassbandError.UnknownPassbandLetter ∧
    parse "X Johnson" = Except.error PassbandError.InvalidPassbandLetter ∧
    parse "X Johnson" ≠ Except.error PassbandError.UnknownPassbandLetter := by
  refine ⟨by decide, by decide, by decide, by decide⟩

/-- Claim C10 (amended): for every uppercase letter absent from the
global wavelength table, the system-identified forms "L Johnson" and
"Johnson L" fail with `InvalidPassbandLetter` — the system's
valid-letter check applies whenever a system is identified, and
`UnknownPassbandLetter` is reserved for the bare-letter form. -/
theorem C10_system_form_unknown_letters :
    ∀ c ∈ asciiUppercase, c ∉ wavelengthKeys →
      parse (String.mk ([c] ++ ' ' :: systemName PhotometricSystem.Johnson)) =
        Except.error PassbandError.InvalidPassbandLetter ∧
      parse (String.mk (systemName PhotometricSystem.Johnson ++ ' ' :: [c])) =
        Except.error PassbandError.InvalidPassbandLetter := by
  decide

/-- Witness for the amended C10 at the letter X. -/
theorem C10_system_form_unknown_letters_witness :
    'X' ∈ asciiUppercase ∧ 'X' ∉ wavelengthKeys ∧
    (parse (String.mk (['X'] ++ ' ' :: systemName PhotometricSystem.Johnson)) =
       Except.error PassbandError.InvalidPassbandLetter ∧
     parse (String.mk (systemName PhotometricSystem.Johnson ++ ' ' :: ['X'])) =
       Except.error PassbandError.InvalidPassbandLetter) :=
  ⟨by decide, by decide, C10_system_form_unknown_letters 'X' (by decide) (by decide)⟩
